import Mathlib

/-!
# Verification of the retrieval-augmented agent pipeline

Shallow embedding of the agent pipeline of the `aiinweb` repository
(two near-identical FastAPI backends: `ai-web` and `logistics-route-planner`).
The embedded code lives in:

* `backend/app/services/rag.py` — `Retriever.search` (FAISS-backed top-k retrieval);
* `backend/app/services/agent.py` — `_generate_gemini_insight` (response parsing);
* `backend/app/services/agent_tools.py` — `validate_route_timing`;
* `backend/app/services/agent_langchain.py` — `run_route_validation_agent`,
  `_parse_validation_result`, `_build_structured_action_plan`, `_get_llm`,
  `_safe_json_loads`, `_format_metric`.

Modelling conventions:

* Python `str` values are Lean `String`s; all operations used by the code
  (`split`, `strip`, `startswith`, `lower`, `in`, `replace`, lexicographic
  comparison) are re-implemented structurally over `String.data` so that every
  definition evaluates by kernel reduction.
* Python numbers are `ℚ` (the code never relies on float rounding error; the
  textual rendering of numbers inside human-readable sentences is approximated
  by an explicit decimal formatter, and no theorem depends on those digits).
* JSON-shaped tool payloads are values of the inductive `PyJson`; the stdlib
  codec is modelled by the round-trip `loads (dumps x) = some x`, and the
  plain-prose error-marker strings produced on tool failure are not valid
  JSON, so `loads` fails on them.
* External collaborators (weather/traffic/metrics APIs, langchain tool
  invocation, geocoding, the LLM provider, `datetime` parsing of the request
  timestamp) are inputs: each attempted invocation is an `Except` outcome
  carried by an `AgentWorld` value, exactly one outcome per `try:` block of
  the source.
-/

namespace AgentSpec

/-! ## Python string operations, re-implemented structurally -/

/-- Python `str.strip()` on a character list: drop whitespace on both ends. -/
def stripChars (l : List Char) : List Char :=
  ((l.dropWhile Char.isWhitespace).reverse.dropWhile Char.isWhitespace).reverse

/-- Python `str.strip()`. -/
def pyStrip (s : String) : String := ⟨stripChars s.data⟩

/-- Python `str.startswith(p)`. -/
def pyStartsWith (s p : String) : Bool := p.data.isPrefixOf s.data

/-- Python `str.lower()` (ASCII case folding, which covers every token the
code compares after lowering). -/
def pyLower (s : String) : String := ⟨s.data.map Char.toLower⟩

/-- Substring occurrence test on character lists (Python `needle in haystack`). -/
def containsChars (needle : List Char) : List Char → Bool
  | [] => needle.isEmpty
  | c :: rest => needle.isPrefixOf (c :: rest) || containsChars needle rest

/-- Python `needle in haystack` for strings. -/
def pyContains (haystack needle : String) : Bool :=
  containsChars needle.data haystack.data

/-- Splitter on a non-empty separator, fuelled by the remaining length so the
recursion is structural (Python `str.split(sep)` semantics: keeps empty
pieces, yields one piece for the empty string). -/
def splitSeqGo (sep : List Char) : Nat → List Char → List Char → List (List Char)
  | 0, cur, rest => [cur.reverse ++ rest]
  | _ + 1, cur, [] => [cur.reverse]
  | fuel + 1, cur, c :: rest =>
    if sep.isPrefixOf (c :: rest) then
      cur.reverse :: splitSeqGo sep fuel [] (List.drop sep.length (c :: rest))
    else
      splitSeqGo sep fuel (c :: cur) rest

/-- Python `str.split(sep)` (full split, `sep` non-empty). -/
def pySplit (s sep : String) : List String :=
  (splitSeqGo sep.data s.data.length [] s.data).map (fun l => ⟨l⟩)

/-- Python `str.split(sep, 1)`: split at the first occurrence only. -/
def pySplitOnce (s sep : String) : List String :=
  match pySplit s sep with
  | [] => []
  | x :: rest =>
    if rest.isEmpty then [x]
    else [x, String.intercalate sep rest]

/-- Python `str.replace(old, new)` (replace every occurrence). -/
def pyReplace (s old new : String) : String :=
  String.intercalate new (pySplit s old)

/-- Python truthiness of an optional string (`None` and `""` are falsy). -/
def pyTruthyStr : Option String → Bool
  | none => false
  | some s => !s.data.isEmpty

/-- Python `s[:n]` (take the first `n` characters). -/
def pyTake (s : String) (n : Nat) : String := ⟨s.data.take n⟩

/-- Character count of a Python string (`len(s)`). -/
def pyLen (s : String) : Nat := s.data.length

/-- Decimal digits of a natural number, fuelled structural recursion. -/
def natDigitsGo : Nat → Nat → List Char → List Char
  | 0, _, acc => acc
  | fuel + 1, n, acc =>
    let d := Char.ofNat (48 + n % 10)
    if n < 10 then d :: acc else natDigitsGo fuel (n / 10) (d :: acc)

/-- Render a natural number in decimal (Python `str(n)` for `n ≥ 0`). -/
def natStr (n : Nat) : String := ⟨natDigitsGo (n + 1) n []⟩

/-- Render an integer in decimal (Python `str(n)`). -/
def intStr (n : Int) : String :=
  if n < 0 then "-" ++ natStr n.natAbs else natStr n.natAbs

/-- Round a rational to the nearest integer, halves to even (Python's
`format`/`round` rounding mode). -/
def roundHalfEven (q : ℚ) : Int :=
  let f : Int := ⌊q⌋
  if q - f < 1/2 then f
  else if q - f > 1/2 then f + 1
  else if f % 2 = 0 then f else f + 1

/-- Fixed-point decimal rendering with `p` fractional digits: models Python
`f"{v:.pf}"` on the rational value of the float. -/
def fmtFixed (p : Nat) (q : ℚ) : String :=
  let scaled := roundHalfEven (q * (10 ^ p : ℕ))
  let sign := if scaled < 0 then "-" else ""
  let a := scaled.natAbs
  if p = 0 then sign ++ natStr a
  else
    let ip := a / 10 ^ p
    let fp := a % 10 ^ p
    let fpDigits := natStr fp
    let pad := String.mk (List.replicate (p - pyLen fpDigits) '0')
    sign ++ natStr ip ++ "." ++ pad ++ fpDigits

/-- Python `str(x)` for a float-valued rational (approximate: integral values
render as `n.0`, others with two fractional digits; never inspected by a
theorem). -/
def ratPyStr (q : ℚ) : String :=
  if q.den = 1 then intStr q.num ++ ".0" else fmtFixed 2 q

/-- Insert `x` after every element `y` with `le y x` (stable insertion). -/
def insSorted (le : α → α → Bool) (x : α) : List α → List α
  | [] => [x]
  | y :: ys => if le y x then y :: insSorted le x ys else x :: y :: ys

/-- Stable insertion sort by a boolean `le` (models Python `sorted`). -/
def sortByLe (le : α → α → Bool) : List α → List α
  | [] => []
  | x :: xs => insSorted le x (sortByLe le xs)

/-! ## `rag.py`: `Retriever` over a FAISS `IndexFlatL2`

Both variants share this wrapper verbatim (they differ only in the embedding
provider, which is a collaborator here: theorems quantify over the embedding
function). `faiss.IndexFlatL2.search` is modelled as exact squared-L2 k-nearest
neighbour over the stored vectors: for a positive row count it returns
`min k n` rows sorted by distance with ties broken by insertion index (the id
tie-breaking of the FAISS heaps); for a non-positive row count the library
raises — the Python wrapper executes `assert k > 0` (and the C++ flat index
checks `k > 0` as well) — modelled as an `Except.error`. FAISS's `-1` padding
labels cannot occur since `min k n ≤ n`, but the wrapper's
`if idx == -1: continue` guard is kept. -/

/-- A stored document chunk (`content`, `source`, embedding vector). -/
structure DocumentChunk where
  content : String
  source : String
  embedding : List ℚ
deriving Inhabited

/-- Squared Euclidean distance between two vectors (what `IndexFlatL2` scores). -/
def sqDist (u v : List ℚ) : ℚ :=
  ((u.zip v).map (fun p => (p.1 - p.2) * (p.1 - p.2))).sum

/-- Comparison on `(distance, insertion index)` pairs: by distance, ties by
original insertion order. -/
def distIdxLe (a b : ℚ × Int) : Bool :=
  if a.1 < b.1 then true else if b.1 < a.1 then false else a.2 ≤ b.2

/-- The nearest-row computation of `IndexFlatL2` for a positive row count:
the `kk` nearest base vectors as `(squared distance, index)` pairs. -/
def faissFlatRows (base : List (List ℚ)) (q : List ℚ) (kk : Int) : List (ℚ × Int) :=
  (sortByLe distIdxLe (base.enum.map (fun p => (sqDist q p.2, (p.1 : Int))))).take kk.toNat

/-- Model of `faiss.IndexFlatL2.search` restricted to one query row: the
Python wrapper asserts `k > 0` before searching, so a non-positive row count
raises an `AssertionError` instead of returning rows. -/
def indexFlatL2Search (base : List (List ℚ)) (q : List ℚ) (kk : Int) :
    Except String (List (ℚ × Int)) :=
  if kk ≤ 0 then .error "assert k > 0"
  else .ok (faissFlatRows base q kk)

/-- One retrieval hit (`content`, `source`, distance score). -/
structure RetrievedContext where
  content : String
  source : String
  score : ℚ
deriving Inhabited, Repr

/-- `Retriever.search(query, k)` from `rag.py`: empty-index guard, then FAISS
search with `min(k, len(self.chunks))` rows, skipping `-1` labels, mapping row
labels back to chunks; an exception from the FAISS call (the `k > 0`
assertion) propagates, as `search` wraps it in no handler. `embedF` is the
embedding provider collaborator (`embed_text`). -/
def retrieverSearch (embedF : String → List ℚ) (chunks : List DocumentChunk)
    (query : String) (k : Int) : Except String (List RetrievedContext) :=
  if chunks.isEmpty then .ok []
  else
    match indexFlatL2Search (chunks.map (·.embedding)) (embedF query)
      (min k (chunks.length : Int)) with
    | .error e => .error e
    | .ok rows =>
      .ok ((rows.filter (fun p => p.2 ≠ -1)).map
        (fun p =>
          let chunk := chunks.getD p.2.toNat default
          { content := chunk.content, source := chunk.source, score := p.1 }))

/-! ## `agent.py`: response parsing inside `_generate_gemini_insight`

Both variants contain the identical parse loop over the Gemini reply: lines
beginning `INSIGHT:` set the insight, lines beginning `RECOMMENDATION_` are
split once at `:`; a `|`-delimited `title|detail|priority` payload (three or
more pieces) yields a recommendation, with any priority token outside
`{high, medium, low}` coerced to `medium`. -/

/-- A recommendation produced by the agent (`AgentRecommendation` model). -/
structure AgentRecommendation where
  title : String
  detail : String
  priority : String
deriving Inhabited, Repr

/-- The `RECOMMENDATION_` branch of the loop body: what one line contributes. -/
def geminiRecOfLine (line : String) : Option AgentRecommendation :=
  match pySplitOnce line ":" with
  | [_, payload] =>
    let recParts := pySplit (pyStrip payload) "|"
    match recParts.get? 2 with
    | some third =>
      let priority0 := pyLower (pyStrip third)
      let priority :=
        if priority0 = "high" ∨ priority0 = "medium" ∨ priority0 = "low"
        then priority0 else "medium"
      some
        { title := "[AI] " ++ pyStrip (recParts.getD 0 "")
          detail := pyStrip (recParts.getD 1 "")
          priority := priority }
    | none => none
  | _ => none

/-- One iteration of the parse loop of `_generate_gemini_insight`: state is
`(insight, recommendations so far)`. -/
def geminiScanStep (st : String × List AgentRecommendation) (rawLine : String) :
    String × List AgentRecommendation :=
  if pyStartsWith (pyStrip rawLine) "INSIGHT:" then
    (pyStrip ⟨(pyStrip rawLine).data.drop 8⟩, st.2)
  else if pyStartsWith (pyStrip rawLine) "RECOMMENDATION_" then
    match geminiRecOfLine (pyStrip rawLine) with
    | some rec => (st.1, st.2 ++ [rec])
    | none => st
  else st

/-- The full parse loop of `_generate_gemini_insight` over `response_text`:
returns the insight text and the accumulated AI recommendations. -/
def geminiScan (responseText : String) : String × List AgentRecommendation :=
  (pySplit responseText "\n").foldl geminiScanStep ("", [])

/-! ## `agent_tools.py`: `validate_route_timing`

The tool receives `route_request.model_dump()`; only the fields it reads are
modelled. The `planned_start_time` parse (`datetime.fromisoformat`, falling
back to `datetime.now()`) is a collaborator: its result enters as
`startMinutes`, the absolute minute count of the start instant measured from
some midnight, so that `strftime("%H:%M")` is `fmtHHMM`. The outer
`try/except` of the tool only guards malformed dict inputs, which cannot occur
for the structural inputs modelled here. -/

/-- The subset of Python/JSON values the pipeline passes around. -/
inductive PyJson where
  | null
  | bool (b : Bool)
  | num (q : ℚ)
  | str (s : String)
  | arr (items : List PyJson)
  | obj (fields : List (String × PyJson))
deriving Inhabited

/-- Python truthiness of a JSON-shaped value. -/
def pyFalsy : PyJson → Bool
  | .null => true
  | .bool b => !b
  | .num q => q = 0
  | .str s => s.data.isEmpty
  | .arr xs => xs.isEmpty
  | .obj fs => fs.isEmpty

/-- `dict.get(key)` on an object value (dict keys are unique, so first match). -/
def PyJson.dictGet (j : PyJson) (key : String) : Option PyJson :=
  match j with
  | .obj fields => fields.lookup key
  | _ => none

/-- String escaping for the JSON renderer (quotes and backslashes; the
payloads at hand contain no control characters). -/
def escapeJson (s : String) : String :=
  ⟨s.data.foldr (fun c acc =>
      if c = '"' ∨ c = '\\' then '\\' :: c :: acc else c :: acc) []⟩

/-- JSON number rendering (`json.dumps`): integers bare, floats approximated
with a fixed-point rendering (never inspected by a theorem). -/
def jsonNumStr (q : ℚ) : String :=
  if q.den = 1 then intStr q.num else fmtFixed 4 q

mutual

/-- `json.dumps` with default separators. The source sometimes passes
`indent=2`; the indentation only affects whitespace inside strings that no
theorem inspects, so the compact rendering is used throughout. -/
def PyJson.dumps : PyJson → String
  | .null => "null"
  | .bool true => "true"
  | .bool false => "false"
  | .num q => jsonNumStr q
  | .str s => "\"" ++ escapeJson s ++ "\""
  | .arr xs => "[" ++ String.intercalate ", " (dumpsList xs) ++ "]"
  | .obj fs => "\x7b" ++ String.intercalate ", " (dumpsFields fs) ++ "\x7d"

/-- Renders each array element. -/
def dumpsList : List PyJson → List String
  | [] => []
  | x :: xs => x.dumps :: dumpsList xs

/-- Renders each object field. -/
def dumpsFields : List (String × PyJson) → List String
  | [] => []
  | (k, v) :: fs => ("\"" ++ escapeJson k ++ "\": " ++ v.dumps) :: dumpsFields fs

end

/-- Python `list.extend(v)` on an issues list, with the bare-`except:` of the
call site swallowing the `TypeError` a non-iterable raises: lists extend
element-wise, strings extend character-wise, dicts extend with their keys,
anything else leaves the list unchanged. -/
def pyExtendList (issues : List PyJson) (v : PyJson) : List PyJson :=
  match v with
  | .arr xs => issues ++ xs
  | .str s => issues ++ s.data.map (fun c => .str ⟨[c]⟩)
  | .obj fs => issues ++ fs.map (fun f => .str f.1)
  | _ => issues

/-! ## `schemas/route_planning.py`: request schema -/

/-- `DeliveryStop` (the fields the pipeline reads). -/
structure DeliveryStop where
  stop_id : String
  location : String
  sequence_number : Int
  time_window_start : Option String := none
  time_window_end : Option String := none
  priority : String := "normal"
  latitude : Option ℚ := none
  longitude : Option ℚ := none
deriving Inhabited

/-- `OperationalConstraints`. -/
structure OperationalConstraints where
  max_route_duration_hours : Option ℚ := none
  driver_shift_end : Option String := none
  vehicle_capacity : Option ℚ := none
  notes : Option String := none

/-- `RouteRequest`. -/
structure RouteRequest where
  route_id : String
  start_location : String
  planned_start_time : String
  vehicle_id : Option String := none
  vehicle_type : Option String := some "van"
  start_latitude : Option ℚ := none
  start_longitude : Option ℚ := none
  stops : List DeliveryStop
  constraints : Option OperationalConstraints := none
  task : String

/-! ## `agent_langchain.py`: `_parse_validation_result`

`tool_results` maps tool keys to either the tool's output string (always
produced by `json.dumps`, modelled as the structured value) or, after a failed
invocation, a plain-prose error-marker string (modelled as `.error`): the
`json.loads` at the call sites succeeds exactly on the former, which the
`Except` pattern matches mirror. A payload that is not a JSON object makes the
`.get` attribute access raise; the surrounding bare `except`s swallow that, so
those branches skip, which the `.obj` patterns mirror. -/

/-- Outcome of one capability attempt as stored in `tool_results`. -/
abbrev ToolOut := Except String PyJson

/-- Trace record of one tool invocation (`AgentToolCall`). -/
structure ToolCallRec where
  tool : String
  arguments : PyJson
  output : String
  output_preview : String
deriving Inhabited

/-- `RouteValidationResult` (fields store exactly what the source assigns;
pydantic's response-model coercion is not modelled). -/
structure RouteValidationResult where
  is_valid : Bool
  issues : List PyJson
  recommendations : List String
  action_plan : List String
  optimized_stop_order : Option (List PyJson)
  summary : String
  estimated_duration_hours : Option PyJson
  estimated_distance_km : Option PyJson
  tool_calls : List ToolCallRec

/-- State of the line scan of `_parse_validation_result`. -/
structure ScanState where
  is_valid : Bool := true
  issues : List PyJson := []
  recommendations : List String := []
  optimized_stop_order : Option (List PyJson) := none
  summary : String := ""

/-- One iteration of the line scan: strip the line, then dispatch on the
recognized line tags `VALID:`, `ISSUE:`, `RECOMMENDATION:`,
`OPTIMIZED_ORDER:`, `SUMMARY:`. -/
def scanLineStripped (st : ScanState) (line : String) : ScanState :=
  if pyStartsWith line "VALID:" then
    { st with is_valid := pyContains (pyLower line) "true" }
  else if pyStartsWith line "ISSUE:" then
    let t := pyStrip (pyReplace line "ISSUE:" "")
    if t.data.isEmpty then st else { st with issues := st.issues ++ [.str t] }
  else if pyStartsWith line "RECOMMENDATION:" then
    let t := pyStrip (pyReplace line "RECOMMENDATION:" "")
    if t.data.isEmpty then st
    else { st with recommendations := st.recommendations ++ [t] }
  else if pyStartsWith line "OPTIMIZED_ORDER:" then
    let t := pyStrip (pyReplace line "OPTIMIZED_ORDER:" "")
    if t.data.isEmpty then st
    else
      let ids : List PyJson := (pySplit t ",").map (fun s => PyJson.str (pyStrip s))
      { st with optimized_stop_order := some ids }
  else if pyStartsWith line "SUMMARY:" then
    { st with summary := pyStrip (pyReplace line "SUMMARY:" "") }
  else st

/-- One iteration of the line scan of `_parse_validation_result`: strip the
raw line, then dispatch. -/
def scanLine (st : ScanState) (rawLine : String) : ScanState :=
  scanLineStripped st (pyStrip rawLine)

/-- Rendering of a numeric payload value under `f"{v:.1f}"` (a non-numeric
value would raise there; the deterministic payloads are numeric). -/
def pyFmt1 : PyJson → String
  | .num q => fmtFixed 1 q
  | _ => ""

/-- `_parse_validation_result(agent_output, route_request, tool_results,
tool_calls)`: line scan, then the timing-validation override, the metrics
numeric extraction, the optimization fallback order, and the default summary. -/
def parseValidationResult (agentOutput : String) (rr : RouteRequest)
    (toolResults : List (String × ToolOut)) (toolCalls : List ToolCallRec) :
    RouteValidationResult :=
  let st := (pySplit agentOutput "\n").foldl scanLine {}
  let timingOverride :=
    match toolResults.lookup "timing_validation" with
    | some (.ok (.obj fs)) =>
      if pyFalsy ((fs.lookup "is_valid").getD (.bool true)) then
        some (pyExtendList st.issues ((fs.lookup "issues").getD (.arr [])))
      else none
    | _ => none
  let isValid := if timingOverride.isSome then false else st.is_valid
  let issues := timingOverride.getD st.issues
  let metricsPair :=
    match toolResults.lookup "metrics" with
    | some (.ok (.obj fs)) => (fs.lookup "estimated_time_hours", fs.lookup "distance_km")
    | _ => (none, none)
  let dur := metricsPair.1
  let dist := metricsPair.2
  let optimizedOrder :=
    match st.optimized_stop_order with
    | some l => some l
    | none =>
      match toolResults.lookup "optimization" with
      | some (.ok (.obj fs)) =>
        match (fs.lookup "optimized_sequence").getD (.arr []) with
        | .arr xs => some xs
        | _ => none
      | _ => none
  let summary :=
    if st.summary.data.isEmpty then
      if isValid then
        "Route " ++ rr.route_id ++ " is valid with " ++ natStr rr.stops.length
          ++ " stops. "
          ++ (match dur with
              | some v => if pyFalsy v then "" else
                  "Estimated duration: " ++ pyFmt1 v ++ "h. "
              | none => "")
          ++ natStr st.recommendations.length ++ " recommendations provided."
      else
        "Route " ++ rr.route_id ++ " has " ++ natStr issues.length
          ++ " issues that must be addressed before execution."
    else st.summary
  { is_valid := isValid
    issues := issues
    recommendations := st.recommendations
    action_plan := []
    optimized_stop_order := optimizedOrder
    summary := summary
    estimated_duration_hours := dur
    estimated_distance_km := dist
    tool_calls := toolCalls }

/-! ## `agent_langchain.py`: `_build_structured_action_plan` -/

/-- `dict.get(key)` over the parsed payload fields, `None` for a missing key. -/
def getf (fs : List (String × PyJson)) (k : String) : PyJson :=
  (fs.lookup k).getD .null

/-- Python `a or b` on JSON values. -/
def pyOr (a b : PyJson) : PyJson := if pyFalsy a then b else a

/-- Numeric view used for the `isinstance(value, (int, float))` guards
(Python `bool` is an `int`, so it passes them). -/
def pyNumVal : PyJson → Option ℚ
  | .num q => some q
  | .bool b => some (if b then 1 else 0)
  | _ => none

/-- Python `str(v)` (integral floats are not distinguished from ints by the
rational model; the rendering is approximate and never inspected). -/
def pyStrOf : PyJson → String
  | .str s => s
  | .null => "None"
  | .bool true => "True"
  | .bool false => "False"
  | .num q => ratPyStr q
  | .arr xs => (PyJson.arr xs).dumps
  | .obj fs => (PyJson.obj fs).dumps

/-- `_format_metric(value, suffix)`: fixed two-digit rendering for floats,
plain rendering for ints, `None` for non-numbers. -/
def formatMetric (v : PyJson) (suffix : String) : Option String :=
  match v with
  | .num q => some ((if q.den = 1 then intStr q.num else fmtFixed 2 q) ++ suffix)
  | .bool b => some ((if b then "True" else "False") ++ suffix)
  | _ => none

/-- Parsed tool payloads handed to the action-plan synthesizer (the dict
built from `_safe_json_loads` of each `tool_results` entry). -/
structure ParsedPayloads where
  weather : Option PyJson := none
  metrics : Option PyJson := none
  traffic : Option PyJson := none
  timing_validation : Option PyJson := none
  optimization : Option PyJson := none

/-- `payload or {}` followed by `isinstance(_, dict) and _`: the object's
fields when the payload is a non-empty dict, otherwise `none`. -/
def nonEmptyDict : Option PyJson → Option (List (String × PyJson))
  | some (.obj fs) => if fs.isEmpty then none else some fs
  | _ => none

/-- Location display helper: `f"{resolved[key]} ({raw})"` when a resolved
name exists, the raw location otherwise. -/
def locDisplay (resolved : List (String × String)) (key raw : String) : String :=
  match resolved.lookup key with
  | some city => city ++ " (" ++ raw ++ ")"
  | none => raw

/-- `_build_structured_action_plan(route_request, validation_result,
tool_payloads, resolved_locations)`: the deterministic dispatcher plan. -/
def buildStructuredActionPlan (rr : RouteRequest) (vr : RouteValidationResult)
    (payloads : ParsedPayloads) (resolved : List (String × String)) : List String :=
  let startDisplay := locDisplay resolved "start" rr.start_location
  let findStop := fun (sid : String) =>
    rr.stops.reverse.find? (fun s => s.stop_id == sid)
  let orderedStops :=
    match vr.optimized_stop_order with
    | some ids =>
      if ids.isEmpty then
        sortByLe (fun a b : DeliveryStop => decide (a.sequence_number ≤ b.sequence_number)) rr.stops
      else
        ids.filterMap (fun idv : PyJson =>
          match idv with
          | .str sid => findStop sid
          | _ => none)
    | none =>
      sortByLe (fun a b : DeliveryStop => decide (a.sequence_number ≤ b.sequence_number)) rr.stops
  let pathStep :=
    if orderedStops.isEmpty then []
    else
      let segments := orderedStops.map (fun stop : DeliveryStop =>
        stop.stop_id ++ " (" ++ locDisplay resolved stop.stop_id stop.location ++ ")")
      ["Plot the delivery path on MapBox: start at " ++ startDisplay ++ " → "
        ++ String.intercalate " → " segments]
  let metricsStep :=
    match nonEmptyDict payloads.metrics with
    | some fs =>
      let parts :=
        ((formatMetric (getf fs "distance_km") " km").toList
          ++ (formatMetric (getf fs "estimated_time_hours") " h").toList
          ++ (formatMetric (getf fs "fuel_consumption_liters") " L").toList)
        ++ (match pyNumVal (getf fs "estimated_fuel_cost_usd") with
            | some q => ["$" ++ fmtFixed 2 q ++ " fuel cost"]
            | none => [])
        ++ (match pyNumVal (getf fs "co2_emissions_kg") with
            | some q => [fmtFixed 2 q ++ " kg CO₂"]
            | none => [])
      if parts.isEmpty then [] else ["Review MapBox metrics: " ++ String.intercalate ", " parts]
    | none => []
  let weatherStep :=
    match nonEmptyDict payloads.weather with
    | some fs =>
      let cond := pyOr (getf fs "current_conditions") (getf fs "conditions")
      let parts :=
        (if pyFalsy cond then [] else [pyStrOf cond])
        ++ (match pyNumVal (getf fs "temperature_celsius") with
            | some q => [fmtFixed 1 q ++ "°C"]
            | none => [])
        ++ (match pyNumVal (getf fs "wind_speed_mph") with
            | some q => ["wind " ++ fmtFixed 1 q ++ " mph"]
            | none => [])
      let impact := getf fs "delivery_impact"
      let impactText := if pyFalsy impact then "" else " Impact: " ++ pyStrOf impact
      if parts.isEmpty ∧ impactText.data.isEmpty then []
      else ["Brief the driver on conditions near " ++ rr.start_location ++ ": "
        ++ String.intercalate ", " parts ++ impactText]
    | none => []
  let trafficStep :=
    match nonEmptyDict payloads.traffic with
    | some fs =>
      let level := getf fs "traffic_level"
      let delayMinutes := pyOr (getf fs "delay_minutes") (getf fs "estimated_delay_minutes")
      let parts :=
        (if pyFalsy level then [] else [pyStrOf level])
        ++ (match pyNumVal (getf fs "delay_factor") with
            | some q => ["delay factor " ++ fmtFixed 2 q ++ "x"]
            | none => [])
        ++ (match pyNumVal delayMinutes with
            | some q => if q > 0 then ["~" ++ fmtFixed 1 q ++ " min extra"] else []
            | none => [])
      if parts.isEmpty then []
      else ["Incorporate MapBox traffic insights: " ++ String.intercalate ", " parts]
    | none => []
  let timingIsDict :=
    match payloads.timing_validation with
    | some (.obj _) => true
    | some v => pyFalsy v
    | none => true
  let timingStep :=
    if timingIsDict || rr.constraints.isSome then
      let timingParts :=
        (match nonEmptyDict payloads.timing_validation with
          | some fs =>
            if pyFalsy ((fs.lookup "is_valid").getD (.bool true)) then
              match pyOr (getf fs "issues") (.arr []) with
              | .arr issueVals =>
                if issueVals.isEmpty then []
                else ["resolve timing issues ("
                  ++ String.intercalate "; " ((issueVals.take 2).map pyStrOf) ++ ")"]
              | _ => []
            else []
          | none => [])
        ++ (match rr.constraints with
            | some c =>
              let bits :=
                (match c.max_route_duration_hours with
                  | some v => ["max " ++ ratPyStr v ++ " h"]
                  | none => [])
                ++ (if pyTruthyStr c.driver_shift_end then
                      ["shift end " ++ c.driver_shift_end.getD ""] else [])
                ++ (match c.vehicle_capacity with
                    | some v => ["capacity " ++ ratPyStr v]
                    | none => [])
              if bits.isEmpty then []
              else ["respect constraints: " ++ String.intercalate ", " bits]
            | none => [])
      if timingParts.isEmpty then []
      else ["Confirm schedule alignment: " ++ String.intercalate "; " timingParts]
    else []
  let dispatchStep :=
    if orderedStops.isEmpty then []
    else ["Dispatch, follow the plotted sequence, and capture completion updates after each stop."]
  (pathStep ++ metricsStep ++ weatherStep ++ trafficStep ++ timingStep ++ dispatchStep).filter
    (fun s => !s.data.isEmpty)

/-! ## `agent_langchain.py`: `_get_llm` and `run_route_validation_agent`

The orchestration invokes five capabilities in a fixed order, each inside its
own `try/except`; a failure stores a marker string in `tool_results` and skips
the trace append. `_get_llm` runs before the guarded block and raises
`AgentServiceError` when no provider is configured; the guarded block's only
external effect is the LLM chain invocation, whose failure the outer `except`
rethrows as `AgentServiceError("Agent execution failed: ...")`. The `db is
None` code path is modelled (with `db` set, the retrieval results enter as
`ragContexts`; persistence does not alter the returned value when the commit
succeeds, and is otherwise outside this embedding). -/

/-- The settings fields `_get_llm` reads. -/
structure Settings where
  gemini_api_key : Option String := none
  groq_api_key : Option String := none

/-- `_get_llm()`: Gemini when its key and import are available, else Groq,
else an `AgentServiceError`. -/
def getLLM (s : Settings) (geminiImportOk openaiImportOk : Bool) : Except String Unit :=
  if pyTruthyStr s.gemini_api_key ∧ geminiImportOk then .ok ()
  else if pyTruthyStr s.groq_api_key ∧ openaiImportOk then .ok ()
  else .error "No LLM provider configured (need GEMINI_API_KEY or GROQ_API_KEY)"

/-- The five capabilities the orchestration attempts, in source order. -/
inductive Cap where
  | weather
  | metrics
  | timing
  | optimization
  | traffic
deriving DecidableEq

/-- The fixed invocation order of the capability sequence. -/
def capsOrder : List Cap := [.weather, .metrics, .timing, .optimization, .traffic]

/-- Registered tool name of each capability. -/
def capName : Cap → String
  | .weather => "check_weather_conditions"
  | .metrics => "calculate_route_metrics"
  | .timing => "validate_route_timing"
  | .optimization => "optimize_stop_sequence"
  | .traffic => "check_traffic_conditions"

/-- `tool_results` key of each capability. -/
def capKey : Cap → String
  | .weather => "weather"
  | .metrics => "metrics"
  | .timing => "timing_validation"
  | .optimization => "optimization"
  | .traffic => "traffic"

/-- Error-marker text prepended to the exception message of a failed attempt. -/
def capMarker : Cap → String
  | .weather => "Weather unavailable: "
  | .metrics => "Calculation error: "
  | .timing => "Validation error: "
  | .optimization => "Optimization error: "
  | .traffic => "Traffic check unavailable: "

/-- Whether the orchestration attempts a capability for this request:
weather and traffic always, metrics only with at least one stop, timing and
optimization only for the matching tasks. -/
def capGate (rr : RouteRequest) : Cap → Bool
  | .weather => true
  | .metrics => rr.stops.length > 0
  | .timing => rr.task = "validate_route" ∨ rr.task = "validate_and_recommend"
  | .optimization => rr.task = "optimize_route" ∨ rr.task = "validate_and_recommend"
  | .traffic => true

/-- External world of one agent run: the outcome of every collaborator call.
Each capability field is the outcome of the corresponding `try:` block
(argument preparation plus `invoke`); `startTod` is the
`datetime.fromisoformat(...).strftime("%H:%M")` outcome that the traffic
block computes first; `llmReply` is the chain invocation outcome with the
extracted text content. -/
structure AgentWorld where
  settings : Settings
  geminiImportOk : Bool := true
  openaiImportOk : Bool := true
  resolved : List (String × String) := []
  ragContexts : List RetrievedContext := []
  weather : ToolOut
  metrics : ToolOut
  timing : ToolOut
  optimization : ToolOut
  startTod : Except String String
  traffic : ToolOut
  llmReply : Except String String

/-- Outcome of one capability attempt (the traffic attempt fails already when
the start-time parse raises). -/
def capOutcome (w : AgentWorld) : Cap → ToolOut
  | .weather => w.weather
  | .metrics => w.metrics
  | .timing => w.timing
  | .optimization => w.optimization
  | .traffic =>
    match w.startTod with
    | .error e => .error e
    | .ok _ => w.traffic

/-- `PyJson` for an optional number (`None` when absent). -/
def optNum : Option ℚ → PyJson
  | some q => .num q
  | none => .null

/-- The `route_data` argument dict recorded for the metrics tool. -/
def metricsRouteData (rr : RouteRequest) : PyJson :=
  .obj [("start_location", .str rr.start_location),
        ("start_latitude", optNum rr.start_latitude),
        ("start_longitude", optNum rr.start_longitude),
        ("stops", .arr (rr.stops.map (fun s =>
          .obj [("location", .str s.location),
                ("latitude", optNum s.latitude),
                ("longitude", optNum s.longitude)]))),
        ("area_type", .str "urban"),
        ("vehicle_type", .str (match rr.vehicle_type with
          | some v => if v.data.isEmpty then "van" else v
          | none => "van"))]

/-- Arguments recorded in the trace entry of each capability. -/
def capTracedArgs (rr : RouteRequest) (w : AgentWorld) : Cap → PyJson
  | .weather => .obj [("location", .str rr.start_location)]
  | .metrics => metricsRouteData rr
  | .timing => .obj [("route_id", .str rr.route_id)]
  | .optimization => .obj [("route_id", .str rr.route_id)]
  | .traffic => .obj [("location", .str rr.start_location),
      ("time_of_day", .str (match w.startTod with | .ok t => t | .error _ => ""))]

/-- `output[:200] + "..." if len(output) > 200 else output`. -/
def previewStr (s : String) : String :=
  if pyLen s > 200 then pyTake s 200 ++ "..." else s

/-- The `tool_results` entry of an attempted capability: the payload on
success, the marker-prefixed exception text on failure. -/
def markedOut (w : AgentWorld) (c : Cap) : ToolOut :=
  match capOutcome w c with
  | .ok j => .ok j
  | .error e => .error (capMarker c ++ e)

/-- One capability block of the orchestration: when gated in, a success
appends both the trace entry and the result entry, a failure appends only the
marker result entry. -/
def stepCap (rr : RouteRequest) (w : AgentWorld)
    (acc : List ToolCallRec × List (String × ToolOut)) (c : Cap) :
    List ToolCallRec × List (String × ToolOut) :=
  if capGate rr c then
    match capOutcome w c with
    | .ok out =>
      (acc.1 ++ [{ tool := capName c, arguments := capTracedArgs rr w c,
                   output := out.dumps, output_preview := previewStr out.dumps }],
       acc.2 ++ [(capKey c, .ok out)])
    | .error e => (acc.1, acc.2 ++ [(capKey c, .error (capMarker c ++ e))])
  else acc

/-- The tool-gathering phase of `run_route_validation_agent`: the five
capability blocks in order, then the `rag_retrieval` trace entry when
retrieval returned documents. -/
def gatherTools (rr : RouteRequest) (w : AgentWorld) :
    List ToolCallRec × List (String × ToolOut) :=
  let g := capsOrder.foldl (stepCap rr w) ([], [])
  if w.ragContexts.isEmpty then g
  else
    let out := PyJson.obj [("document_count", .num w.ragContexts.length),
                           ("status", .str "success")]
    (g.1 ++ [{ tool := "rag_retrieval",
               arguments := .obj [("query", .str "route planning best practices"),
                                  ("k", .num 3)],
               output := out.dumps,
               output_preview := "Retrieved " ++ natStr w.ragContexts.length
                 ++ " relevant documents" }],
     g.2)

/-- `_safe_json_loads(tool_results.get(key))`: the structured payload exactly
when the entry exists and is a tool output (error markers are plain prose and
fail `json.loads`). -/
def payloadOf (trs : List (String × ToolOut)) (k : String) : Option PyJson :=
  match trs.lookup k with
  | some (.ok j) => some j
  | _ => none

/-- `run_route_validation_agent(route_request)`: `_get_llm`, the capability
sequence, the LLM chain invocation, `_parse_validation_result`, and the
deterministic action plan; an unconfigured provider or a failed LLM call
aborts with `AgentServiceError`. -/
def runRouteValidationAgent (rr : RouteRequest) (w : AgentWorld) :
    Except String RouteValidationResult :=
  match getLLM w.settings w.geminiImportOk w.openaiImportOk with
  | .error e => .error e
  | .ok _ =>
    let g := gatherTools rr w
    match w.llmReply with
    | .error e => .error ("Agent execution failed: " ++ e)
    | .ok agentOutput =>
      let vr := parseValidationResult agentOutput rr g.2 g.1
      let payloads : ParsedPayloads :=
        { weather := payloadOf g.2 "weather"
          metrics := payloadOf g.2 "metrics"
          traffic := payloadOf g.2 "traffic"
          timing_validation := payloadOf g.2 "timing_validation"
          optimization := payloadOf g.2 "optimization" }
      .ok { vr with
        action_plan := buildStructuredActionPlan rr vr payloads w.resolved }

/-! ## Trace characterization helpers and concrete scenarios -/

/-- The serialized output string of a successful capability attempt. -/
def capOutStr (w : AgentWorld) (c : Cap) : String :=
  match capOutcome w c with
  | .ok j => j.dumps
  | .error _ => ""

/-- The trace record a successful capability attempt appends. -/
def mkTraceRec (rr : RouteRequest) (w : AgentWorld) (c : Cap) : ToolCallRec :=
  { tool := capName c
    arguments := capTracedArgs rr w c
    output := capOutStr w c
    output_preview := previewStr (capOutStr w c) }

/-- The tool names the trace is expected to list: the gated-in capabilities
whose attempt succeeded, in the fixed order, then the retrieval entry. -/
def expectedToolNames (rr : RouteRequest) (w : AgentWorld) : List String :=
  ((capsOrder.filter (capGate rr)).filter (fun c => (capOutcome w c).isOk)).map capName
    ++ (if w.ragContexts.isEmpty then [] else ["rag_retrieval"])

/-- The expected `tool_results` entries: one per gated-in capability, in
order, the payload on success and the marker-prefixed error otherwise. -/
def expectedResults (rr : RouteRequest) (w : AgentWorld) : List (String × ToolOut) :=
  (capsOrder.filter (capGate rr)).map (fun c => (capKey c, markedOut w c))

/-- Concrete request: no stops, timing-validation task. -/
def rrC : RouteRequest :=
  { route_id := "RT-001", start_location := "Depot",
    planned_start_time := "2025-12-24T07:00:00Z", stops := [],
    task := "validate_route" }

/-- A neutral successful tool payload. -/
def okJson : PyJson := .obj [("status", .str "ok")]

/-- Concrete world: provider configured, every collaborator succeeds. -/
def wBase : AgentWorld :=
  { settings := { gemini_api_key := some "key" }
    weather := .ok okJson
    metrics := .ok okJson
    timing := .ok okJson
    optimization := .ok okJson
    startTod := .ok "07:00"
    traffic := .ok okJson
    llmReply := .ok "VALID: true" }

/-- Concrete world with no LLM provider configured. -/
def wNoLLM : AgentWorld := { wBase with settings := {} }

/-- Concrete world where the LLM chain invocation raises. -/
def wLLMFail : AgentWorld := { wBase with llmReply := .error "timeout" }

/-- Concrete world where the weather capability attempt raises. -/
def wWeatherFail : AgentWorld := { wBase with weather := .error "boom" }

/-- Concrete tool results holding an invalid timing payload (upstream risk
data) for the parser claims. -/
def riskToolResults : List (String × ToolOut) :=
  [("timing_validation", .ok (.obj
      [("is_valid", .bool false),
       ("issues", .arr [.str "S1: Late arrival at 09:30"])]))]

/-! ## Sortedness of the insertion sort -/

theorem mem_insSorted {le : α → α → Bool} {x y : α} {l : List α} :
    y ∈ insSorted le x l ↔ y = x ∨ y ∈ l := by
  induction l with
  | nil => simp [insSorted]
  | cons z zs ih =>
    simp only [insSorted]
    split
    · simp only [List.mem_cons, ih]
      tauto
    · simp only [List.mem_cons]

theorem insSorted_pairwise {le : α → α → Bool}
    (htot : ∀ a b, le a b = true ∨ le b a = true)
    (htrans : ∀ a b c, le a b = true → le b c = true → le a c = true)
    (x : α) {l : List α} (h : l.Pairwise (fun a b => le a b = true)) :
    (insSorted le x l).Pairwise (fun a b => le a b = true) := by
  induction l with
  | nil => simp [insSorted]
  | cons z zs ih =>
    rcases List.pairwise_cons.mp h with ⟨hz, hzs⟩
    simp only [insSorted]
    split
    case isTrue hle =>
      refine List.pairwise_cons.mpr ⟨?_, ih hzs⟩
      intro y hy
      rcases mem_insSorted.mp hy with rfl | hmem
      · exact hle
      · exact hz y hmem
    case isFalse hnle =>
      have hxz : le x z = true := by
        rcases htot z x with hc | hc
        · exact absurd hc hnle
        · exact hc
      refine List.pairwise_cons.mpr ⟨?_, h⟩
      intro y hy
      rcases List.mem_cons.mp hy with rfl | hmem
      · exact hxz
      · exact htrans x z y hxz (hz y hmem)

theorem sortByLe_pairwise {le : α → α → Bool}
    (htot : ∀ a b, le a b = true ∨ le b a = true)
    (htrans : ∀ a b c, le a b = true → le b c = true → le a c = true)
    (l : List α) : (sortByLe le l).Pairwise (fun a b => le a b = true) := by
  induction l with
  | nil => simp [sortByLe]
  | cons x xs ih => exact insSorted_pairwise htot htrans x ih

theorem distIdxLe_total (a b : ℚ × Int) :
    distIdxLe a b = true ∨ distIdxLe b a = true := by
  unfold distIdxLe
  rcases lt_trichotomy a.1 b.1 with h | h | h
  · left
    simp [h]
  · rcases Int.le_total a.2 b.2 with h2 | h2
    · left
      simp [h, lt_irrefl, h2]
    · right
      simp [h, lt_irrefl, h2]
  · right
    simp [h]

theorem distIdxLe_trans (a b c : ℚ × Int)
    (hab : distIdxLe a b = true) (hbc : distIdxLe b c = true) :
    distIdxLe a c = true := by
  unfold distIdxLe at *
  split at hab
  case isTrue h1 =>
    split at hbc
    case isTrue h2 =>
      simp [lt_trans h1 h2]
    case isFalse h2 =>
      split at hbc
      case isTrue h3 => exact absurd hbc (by simp)
      case isFalse h3 =>
        have : b.1 = c.1 := le_antisymm (not_lt.mp h3) (not_lt.mp h2)
        simp [this ▸ h1]
  case isFalse h1 =>
    split at hab
    case isTrue h2 => exact absurd hab (by simp)
    case isFalse h2 =>
      have hameq : a.1 = b.1 := le_antisymm (not_lt.mp h2) (not_lt.mp h1)
      split at hbc
      case isTrue h3 =>
        simp [hameq ▸ h3]
      case isFalse h3 =>
        split at hbc
        case isTrue h4 => exact absurd hbc (by simp)
        case isFalse h4 =>
          have h5 : a.2 ≤ b.2 := by simpa using hab
          have h6 : b.2 ≤ c.2 := by simpa using hbc
          have hac : ¬ a.1 < c.1 := hameq ▸ h3
          have hca : ¬ c.1 < a.1 := hameq ▸ h4
          simp [hac, hca, le_trans h5 h6]

/-- C6 (amended) — `Retriever.search` returns the empty list for every `k`
when the index holds zero chunks (the guard precedes the FAISS call and no
exception can arise); with a non-empty index and `k ≤ 0`, however, the FAISS
call raises its `assert k > 0` `AssertionError`, which `search` does not
catch — the empty list is returned only on the empty-index path. -/
theorem retrieverSearch_empty_or_nonpos (embedF : String → List ℚ)
    (chunks : List DocumentChunk) (query : String) (k : Int) :
    (chunks = [] → retrieverSearch embedF chunks query k = .ok []) ∧
    (chunks ≠ [] → k ≤ 0 →
      retrieverSearch embedF chunks query k = .error "assert k > 0") := by
  constructor
  · intro h
    subst h
    rfl
  · intro hne hk
    have hc : chunks.isEmpty = false := by
      cases chunks with
      | nil => exact absurd rfl hne
      | cons _ _ => rfl
    have hmin : min k (chunks.length : Int) ≤ 0 := le_trans (min_le_left _ _) hk
    simp [retrieverSearch, hc, indexFlatL2Search, hmin]

/-- C6 witness: the amended theorem applied to an empty chunk set (empty
result) and to a negative `k` over a non-empty chunk set (assertion error). -/
theorem retrieverSearch_empty_or_nonpos_witness :
    retrieverSearch (fun _ => [0]) [] "rain forecast" 3 = .ok [] ∧
    retrieverSearch (fun _ => [0]) [⟨"Rain slows deliveries", "A", [1]⟩]
      "rain forecast" (-2) = .error "assert k > 0" :=
  ⟨(retrieverSearch_empty_or_nonpos (fun _ => [0]) [] "rain forecast" 3).1 rfl,
   (retrieverSearch_empty_or_nonpos (fun _ => [0])
      [⟨"Rain slows deliveries", "A", [1]⟩] "rain forecast" (-2)).2
     (List.cons_ne_nil _ _) (by decide)⟩

/-- C6 counterexample: on a one-chunk index with `k = 0`, `search` does not
return an empty list — the FAISS `assert k > 0` fires and the exception
propagates, refuting the claim's `k ≤ 0` branch at a concrete input. -/
theorem retrieverSearch_assert_counterexample :
    retrieverSearch (fun _ => [0]) [⟨"Rain slows deliveries", "A", [1]⟩]
      "rain forecast" 0 = .error "assert k > 0" :=
  rfl

/-- C7 — on a non-empty chunk set with positive `k`, `Retriever.search`
succeeds and returns at most `k` hits whose scores are non-decreasing, and
the underlying FAISS row list is ordered by distance with ties broken by
insertion index. -/
theorem retrieverSearch_sorted_topk (embedF : String → List ℚ)
    (chunks : List DocumentChunk) (query : String) (k : Int)
    (hne : chunks ≠ []) (hk : 0 < k) :
    ∃ hits, retrieverSearch embedF chunks query k = .ok hits ∧
      hits.length ≤ k.toNat ∧
      hits.Pairwise (fun a b => a.score ≤ b.score) ∧
      (faissFlatRows (chunks.map (·.embedding)) (embedF query)
          (min k (chunks.length : Int))).Pairwise
        (fun a b => a.1 < b.1 ∨ (a.1 = b.1 ∧ a.2 ≤ b.2)) := by
  have hc : chunks.isEmpty = false := by
    cases chunks with
    | nil => exact absurd rfl hne
    | cons _ _ => rfl
  have hlen : (0 : Int) < (chunks.length : Int) := by
    cases chunks with
    | nil => exact absurd rfl hne
    | cons _ _ => exact_mod_cast Nat.succ_pos _
  have hkk : ¬ min k (chunks.length : Int) ≤ 0 := not_le.mpr (lt_min hk hlen)
  have hrowsLe :
      (faissFlatRows (chunks.map (·.embedding)) (embedF query)
        (min k (chunks.length : Int))).Pairwise (fun a b => distIdxLe a b = true) := by
    unfold faissFlatRows
    exact List.Pairwise.sublist (List.take_sublist _ _)
      (sortByLe_pairwise distIdxLe_total distIdxLe_trans _)
  have hlex :
      (faissFlatRows (chunks.map (·.embedding)) (embedF query)
        (min k (chunks.length : Int))).Pairwise
        (fun a b => a.1 < b.1 ∨ (a.1 = b.1 ∧ a.2 ≤ b.2)) := by
    refine hrowsLe.imp ?_
    intro a b hab
    unfold distIdxLe at hab
    split at hab
    case isTrue h1 => exact Or.inl h1
    case isFalse h1 =>
      split at hab
      case isTrue h2 => exact absurd hab (by simp)
      case isFalse h2 =>
        exact Or.inr ⟨le_antisymm (not_lt.mp h2) (not_lt.mp h1), by simpa using hab⟩
  refine ⟨((faissFlatRows (chunks.map (·.embedding)) (embedF query)
      (min k (chunks.length : Int))).filter (fun p => p.2 ≠ -1)).map
      (fun p =>
        let chunk := chunks.getD p.2.toNat default
        { content := chunk.content, source := chunk.source, score := p.1 }),
    ?_, ?_, ?_, hlex⟩
  · unfold retrieverSearch indexFlatL2Search
    simp only [hc, Bool.false_eq_true, if_false]
    rw [if_neg hkk]
  · rw [List.length_map]
    calc ((faissFlatRows (chunks.map (·.embedding)) (embedF query)
          (min k (chunks.length : Int))).filter (fun p => p.2 ≠ -1)).length
        ≤ (faissFlatRows (chunks.map (·.embedding)) (embedF query)
          (min k (chunks.length : Int))).length := List.length_filter_le _ _
      _ ≤ k.toNat := by
        unfold faissFlatRows
        calc (List.take (min k (chunks.length : Int)).toNat _).length
            ≤ (min k (chunks.length : Int)).toNat := List.length_take_le _ _
          _ ≤ k.toNat := Int.toNat_le_toNat (min_le_left _ _)
  · refine List.Pairwise.map _ ?_ (List.Pairwise.filter _ hlex)
    intro a b hab
    rcases hab with h | h
    · exact le_of_lt h
    · exact le_of_eq h.1

/-- C7 witness: the top-k theorem applied to a concrete two-chunk index. -/
theorem retrieverSearch_sorted_topk_witness :
    ([⟨"Rain slows deliveries", "A", [1, 0]⟩, ⟨"Sunny day ahead", "B", [0, 1]⟩] :
        List DocumentChunk) ≠ [] ∧ (0 : Int) < 2 ∧
    ∃ hits, retrieverSearch (fun _ => [1, 0])
        [⟨"Rain slows deliveries", "A", [1, 0]⟩, ⟨"Sunny day ahead", "B", [0, 1]⟩]
        "rain forecast" 2 = .ok hits ∧
      hits.length ≤ (2 : Int).toNat ∧
      hits.Pairwise (fun a b => a.score ≤ b.score) ∧
      (faissFlatRows [[1, 0], [0, 1]] [1, 0] (min 2 2)).Pairwise
        (fun a b => a.1 < b.1 ∨ (a.1 = b.1 ∧ a.2 ≤ b.2)) :=
  ⟨List.cons_ne_nil _ _, by decide,
   retrieverSearch_sorted_topk (fun _ => [1, 0])
     [⟨"Rain slows deliveries", "A", [1, 0]⟩, ⟨"Sunny day ahead", "B", [0, 1]⟩]
     "rain forecast" 2 (List.cons_ne_nil _ _) (by decide)⟩

/-! ## Claims about the Gemini insight response scan -/

theorem rec_not_insight {line : String}
    (h : pyStartsWith line "RECOMMENDATION_" = true) :
    pyStartsWith line "INSIGHT:" = false := by
  by_contra hc
  have h2 : pyStartsWith line "INSIGHT:" = true := by
    cases hv : pyStartsWith line "INSIGHT:"
    · exact absurd hv hc
    · rfl
  have p1 := List.isPrefixOf_iff_prefix.mp h
  have p2 := List.isPrefixOf_iff_prefix.mp h2
  rcases List.prefix_or_prefix_of_prefix p1 p2 with hp | hp
  · exact absurd hp (by decide)
  · exact absurd hp (by decide)

theorem geminiScanStep_recs (st : String × List AgentRecommendation) (l : String) :
    ∃ t, (geminiScanStep st l).2 = st.2 ++ t := by
  unfold geminiScanStep
  split_ifs with h1 h2
  · exact ⟨[], (List.append_nil _).symm⟩
  · cases hrec : geminiRecOfLine (pyStrip l) with
    | none => exact ⟨[], by simp [hrec]⟩
    | some r => exact ⟨[r], by simp [hrec]⟩
  · exact ⟨[], (List.append_nil _).symm⟩

theorem geminiScan_recs_mono (lines : List String)
    (st : String × List AgentRecommendation) (r : AgentRecommendation)
    (hr : r ∈ st.2) : r ∈ (lines.foldl geminiScanStep st).2 := by
  induction lines generalizing st with
  | nil => exact hr
  | cons l ls ih =>
    refine ih (geminiScanStep st l) ?_
    rcases geminiScanStep_recs st l with ⟨t, ht⟩
    rw [ht]
    exact List.mem_append_left _ hr

theorem geminiScan_mem_of_line (lines : List String)
    (st : String × List AgentRecommendation) (line : String) (hline : line ∈ lines)
    (hrec : pyStartsWith (pyStrip line) "RECOMMENDATION_" = true)
    (r : AgentRecommendation) (hr : geminiRecOfLine (pyStrip line) = some r) :
    r ∈ (lines.foldl geminiScanStep st).2 := by
  induction lines generalizing st with
  | nil => cases hline
  | cons l ls ih =>
    rcases List.mem_cons.mp hline with rfl | hmem
    · refine geminiScan_recs_mono ls (geminiScanStep st line) r ?_
      unfold geminiScanStep
      rw [rec_not_insight hrec]
      simp only [Bool.false_eq_true, if_false, hrec, if_true, hr]
      exact List.mem_append_right _ (List.mem_singleton.mpr rfl)
    · exact ih (geminiScanStep st l) hmem

/-- C9 — a `RECOMMENDATION_` line of the Gemini reply whose payload splits at
`|` into a `title|detail|priority` triple yields a recommendation titled
`[AI] <title>`, with the stated priority token (lowered) when it is one of
`high`/`medium`/`low` and `medium` for any other token. -/
theorem geminiScan_recommendation_priority
    (text line hd payload t d p : String)
    (hline : line ∈ pySplit text "\n")
    (hrec : pyStartsWith (pyStrip line) "RECOMMENDATION_" = true)
    (hsplit : pySplitOnce (pyStrip line) ":" = [hd, payload])
    (hparts : pySplit (pyStrip payload) "|" = [t, d, p]) :
    ∃ r ∈ (geminiScan text).2,
      r.title = "[AI] " ++ pyStrip t ∧ r.detail = pyStrip d ∧
      r.priority = (if pyLower (pyStrip p) = "high" ∨ pyLower (pyStrip p) = "medium"
          ∨ pyLower (pyStrip p) = "low" then pyLower (pyStrip p) else "medium") := by
  have hr : geminiRecOfLine (pyStrip line) =
      some { title := "[AI] " ++ pyStrip t, detail := pyStrip d,
             priority := if pyLower (pyStrip p) = "high" ∨ pyLower (pyStrip p) = "medium"
               ∨ pyLower (pyStrip p) = "low" then pyLower (pyStrip p) else "medium" } := by
    unfold geminiRecOfLine
    rw [hsplit]
    dsimp only
    rw [hparts]
    rfl
  exact ⟨_, geminiScan_mem_of_line (pySplit text "\n") ("", []) line hline hrec _ hr,
    rfl, rfl, rfl⟩

/-- C9 witness: a concrete reply whose recommendation line carries the invalid
priority token `URGENT`, coerced to `medium`. -/
theorem geminiScan_recommendation_priority_witness :
    ∃ r ∈ (geminiScan "INSIGHT: solid plan\nRECOMMENDATION_1: Reroute|Use the highway|URGENT").2,
      r.title = "[AI] " ++ pyStrip "Reroute" ∧ r.detail = pyStrip "Use the highway" ∧
      r.priority = (if pyLower (pyStrip "URGENT") = "high"
          ∨ pyLower (pyStrip "URGENT") = "medium"
          ∨ pyLower (pyStrip "URGENT") = "low"
          then pyLower (pyStrip "URGENT") else "medium") :=
  geminiScan_recommendation_priority
    "INSIGHT: solid plan\nRECOMMENDATION_1: Reroute|Use the highway|URGENT"
    "RECOMMENDATION_1: Reroute|Use the highway|URGENT"
    "RECOMMENDATION_1" " Reroute|Use the highway|URGENT"
    "Reroute" "Use the highway" "URGENT"
    (by decide) (by decide) (by decide) (by decide)

/-! ## Claims about `validate_route_timing` -/

/-- C5 — the numeric result fields are read from the metrics payload alone:
for every LLM reply text, when the `metrics` entry is present and parses to a
JSON object, `estimated_duration_hours` and `estimated_distance_km` are that
object's `estimated_time_hours` and `distance_km` values, whatever numbers the
reply text states. -/
theorem parse_numeric_fields_from_metrics (out : String) (rr : RouteRequest)
    (trs : List (String × ToolOut)) (tcs : List ToolCallRec)
    (fs : List (String × PyJson))
    (h : trs.lookup "metrics" = some (.ok (.obj fs))) :
    (parseValidationResult out rr trs tcs).estimated_duration_hours
      = fs.lookup "estimated_time_hours" ∧
    (parseValidationResult out rr trs tcs).estimated_distance_km
      = fs.lookup "distance_km" := by
  constructor
  · show (match trs.lookup "metrics" with
      | some (.ok (.obj fs)) => (fs.lookup "estimated_time_hours", fs.lookup "distance_km")
      | _ => (none, none)).1 = fs.lookup "estimated_time_hours"
    rw [h]
  · show (match trs.lookup "metrics" with
      | some (.ok (.obj fs)) => (fs.lookup "estimated_time_hours", fs.lookup "distance_km")
      | _ => (none, none)).2 = fs.lookup "distance_km"
    rw [h]

/-- C5 witness: a reply that states different numbers is ignored; the result
carries the payload's `2.5` hours and `42` km. -/
theorem parse_numeric_fields_from_metrics_witness :
    (parseValidationResult
        "SUMMARY: The route is 999 km long and takes 99 hours."
        rrC
        [("metrics", .ok (.obj [("estimated_time_hours", .num (5/2)),
                               ("distance_km", .num 42)]))]
        []).estimated_duration_hours = some (.num (5/2)) ∧
    (parseValidationResult
        "SUMMARY: The route is 999 km long and takes 99 hours."
        rrC
        [("metrics", .ok (.obj [("estimated_time_hours", .num (5/2)),
                               ("distance_km", .num 42)]))]
        []).estimated_distance_km = some (.num 42) :=
  parse_numeric_fields_from_metrics
    "SUMMARY: The route is 999 km long and takes 99 hours." rrC
    [("metrics", .ok (.obj [("estimated_time_hours", .num (5/2)),
                           ("distance_km", .num 42)]))]
    [] [("estimated_time_hours", .num (5/2)), ("distance_km", .num 42)] rfl

/-- C10 — once the timing-validation payload parses with a falsy `is_valid`,
the parsed result is invalid and appends that payload's issue list, for every
reply text (so a `VALID: true` line cannot restore validity). -/
theorem parse_timing_invalid_overrides (out : String) (rr : RouteRequest)
    (trs : List (String × ToolOut)) (tcs : List ToolCallRec)
    (fs : List (String × PyJson)) (xs : List PyJson)
    (hlook : trs.lookup "timing_validation" = some (.ok (.obj fs)))
    (hvalid : pyFalsy ((fs.lookup "is_valid").getD (.bool true)) = true)
    (hissues : fs.lookup "issues" = some (.arr xs)) :
    (parseValidationResult out rr trs tcs).is_valid = false ∧
    (parseValidationResult out rr trs tcs).issues
      = ((pySplit out "\n").foldl scanLine {}).issues ++ xs := by
  have hov : (match trs.lookup "timing_validation" with
      | some (.ok (.obj fs)) =>
        if pyFalsy ((fs.lookup "is_valid").getD (.bool true)) then
          some (pyExtendList ((pySplit out "\n").foldl scanLine {}).issues
            ((fs.lookup "issues").getD (.arr [])))
        else none
      | _ => none)
      = some (((pySplit out "\n").foldl scanLine {}).issues ++ xs) := by
    rw [hlook]
    dsimp only
    rw [if_pos hvalid, hissues]
    rfl
  constructor
  · show (if (match trs.lookup "timing_validation" with
      | some (.ok (.obj fs)) =>
        if pyFalsy ((fs.lookup "is_valid").getD (.bool true)) then
          some (pyExtendList ((pySplit out "\n").foldl scanLine {}).issues
            ((fs.lookup "issues").getD (.arr [])))
        else none
      | _ => none).isSome then false
      else ((pySplit out "\n").foldl scanLine {}).is_valid) = false
    rw [hov]
    rfl
  · show (match trs.lookup "timing_validation" with
      | some (.ok (.obj fs)) =>
        if pyFalsy ((fs.lookup "is_valid").getD (.bool true)) then
          some (pyExtendList ((pySplit out "\n").foldl scanLine {}).issues
            ((fs.lookup "issues").getD (.arr [])))
        else none
      | _ => none).getD ((pySplit out "\n").foldl scanLine {}).issues
      = ((pySplit out "\n").foldl scanLine {}).issues ++ xs
    rw [hov]
    rfl

/-- C10 witness: the reply says `VALID: true`, the timing payload says
invalid with one issue; the result is invalid and carries that issue. -/
theorem parse_timing_invalid_overrides_witness :
    (parseValidationResult "VALID: true" rrC riskToolResults []).is_valid = false ∧
    (parseValidationResult "VALID: true" rrC riskToolResults []).issues
      = ((pySplit "VALID: true" "\n").foldl scanLine {}).issues
        ++ [.str "S1: Late arrival at 09:30"] :=
  parse_timing_invalid_overrides "VALID: true" rrC riskToolResults []
    [("is_valid", .bool false), ("issues", .arr [.str "S1: Late arrival at 09:30"])]
    [.str "S1: Late arrival at 09:30"] rfl (by decide) rfl

theorem scanLineStripped_recs (st : ScanState) (line : String)
    (h : pyStartsWith line "RECOMMENDATION:" = false) :
    (scanLineStripped st line).recommendations = st.recommendations := by
  unfold scanLineStripped
  split_ifs with h1 h2 h3 h4 h5
  · rfl
  · dsimp only
    split <;> rfl
  · rw [h] at h3
    exact absurd h3 (by simp)
  · dsimp only
    split <;> rfl
  · rfl
  · rfl

/-- C4 (amended) — `_parse_validation_result` has no sentence-splitting
fallback: when no line of the reply starts with `RECOMMENDATION:` (in
particular when no line starts with any recognized tag), the parsed
recommendation list is empty — there is no floor of three recommendations. -/
theorem parse_no_recommendation_lines (out : String) (rr : RouteRequest)
    (trs : List (String × ToolOut)) (tcs : List ToolCallRec)
    (h : ∀ line ∈ pySplit out "\n",
      pyStartsWith (pyStrip line) "RECOMMENDATION:" = false) :
    (parseValidationResult out rr trs tcs).recommendations = [] := by
  have hscan : ∀ (lines : List String) (st : ScanState),
      (∀ line ∈ lines, pyStartsWith (pyStrip line) "RECOMMENDATION:" = false) →
      (lines.foldl scanLine st).recommendations = st.recommendations := by
    intro lines
    induction lines with
    | nil =>
      intro st _
      rfl
    | cons l ls ih =>
      intro st hl
      rw [List.foldl_cons,
        ih _ (fun x hx => hl x (List.mem_cons_of_mem _ hx))]
      exact scanLineStripped_recs st (pyStrip l) (hl l (List.mem_cons_self _ _))
  have hproj : (parseValidationResult out rr trs tcs).recommendations
      = ((pySplit out "\n").foldl scanLine {}).recommendations := rfl
  rw [hproj, hscan _ _ h]

/-- C4 witness: a prose-only reply yields an empty recommendation list even
with invalid-timing risk data upstream. -/
theorem parse_no_recommendation_lines_witness :
    (parseValidationResult
      "The route is mostly workable. Consider departing before rush hour to add margin."
      rrC riskToolResults []).recommendations = [] :=
  parse_no_recommendation_lines
    "The route is mostly workable. Consider departing before rush hour to add margin."
    rrC riskToolResults [] (by decide)

/-- C4 counterexample: a reply with no recognized line tag and upstream
invalid-timing risk data produces zero recommendations — not the claimed
sentence-derived fallback with a floor of three. -/
theorem parse_fallback_counterexample :
    (∀ line ∈ pySplit
        "The route is mostly workable. Consider departing before rush hour to add margin."
        "\n",
      pyStartsWith (pyStrip line) "VALID:" = false ∧
      pyStartsWith (pyStrip line) "ISSUE:" = false ∧
      pyStartsWith (pyStrip line) "RECOMMENDATION:" = false ∧
      pyStartsWith (pyStrip line) "OPTIMIZED_ORDER:" = false ∧
      pyStartsWith (pyStrip line) "SUMMARY:" = false) ∧
    (parseValidationResult
      "The route is mostly workable. Consider departing before rush hour to add margin."
      rrC riskToolResults []).recommendations.length = 0 := by
  decide

/-! ## Claims about the orchestration of `run_route_validation_agent` -/

theorem capsOrder_mem (c : Cap) : c ∈ capsOrder := by
  cases c <;> simp [capsOrder]

theorem foldl_stepCap_char (rr : RouteRequest) (w : AgentWorld) (caps : List Cap)
    (acc : List ToolCallRec × List (String × ToolOut)) :
    (caps.foldl (stepCap rr w) acc).1
      = acc.1 ++ ((caps.filter (capGate rr)).filter
          (fun c => (capOutcome w c).isOk)).map (mkTraceRec rr w) ∧
    (caps.foldl (stepCap rr w) acc).2
      = acc.2 ++ (caps.filter (capGate rr)).map
          (fun c => (capKey c, markedOut w c)) := by
  induction caps generalizing acc with
  | nil => simp
  | cons c cs ih =>
    rw [List.foldl_cons]
    rcases ih (stepCap rr w acc c) with ⟨h1, h2⟩
    rw [h1, h2]
    by_cases hg : capGate rr c = true
    · cases ho : capOutcome w c with
      | ok j =>
        have hstep : stepCap rr w acc c
            = (acc.1 ++ [mkTraceRec rr w c], acc.2 ++ [(capKey c, .ok j)]) := by
          simp [stepCap, mkTraceRec, capOutStr, hg, ho]
        have hmark : markedOut w c = .ok j := by
          simp [markedOut, ho]
        constructor
        · rw [List.filter_cons_of_pos hg,
            List.filter_cons_of_pos (by rw [ho]; rfl), List.map_cons, hstep]
          simp
        · rw [List.filter_cons_of_pos hg, List.map_cons, hstep, hmark]
          simp
      | error e =>
        have hstep : stepCap rr w acc c
            = (acc.1, acc.2 ++ [(capKey c, .error (capMarker c ++ e))]) := by
          simp [stepCap, hg, ho]
        have hmark : markedOut w c = .error (capMarker c ++ e) := by
          simp [markedOut, ho]
        constructor
        · rw [List.filter_cons_of_pos hg,
            List.filter_cons_of_neg (by rw [ho]; exact fun hcon => Bool.noConfusion hcon),
            hstep]
        · rw [List.filter_cons_of_pos hg, List.map_cons, hstep, hmark]
          simp
    · have hg' : capGate rr c = false := by
        simpa using hg
      have hstep : stepCap rr w acc c = acc := by
        simp [stepCap, hg']
      constructor
      · rw [List.filter_cons_of_neg (by simp [hg']), hstep]
      · rw [List.filter_cons_of_neg (by simp [hg']), hstep]

theorem gatherTools_trace (rr : RouteRequest) (w : AgentWorld) :
    (gatherTools rr w).1.map (fun tc => tc.tool) = expectedToolNames rr w := by
  unfold gatherTools expectedToolNames
  rcases foldl_stepCap_char rr w capsOrder ([], []) with ⟨h1, _⟩
  by_cases hr : w.ragContexts.isEmpty
  · simp only [hr, if_true, h1, List.nil_append, List.map_map, List.append_nil]
    rfl
  · have hr' : w.ragContexts.isEmpty = false := by
      simpa using hr
    simp only [hr', Bool.false_eq_true, if_false, h1, List.nil_append,
      List.map_append, List.map_map]
    rfl

theorem gatherTools_results (rr : RouteRequest) (w : AgentWorld) :
    (gatherTools rr w).2 = expectedResults rr w := by
  unfold gatherTools expectedResults
  rcases foldl_stepCap_char rr w capsOrder ([], []) with ⟨_, h2⟩
  by_cases hr : w.ragContexts.isEmpty
  · simp only [hr, if_true, h2, List.nil_append]
  · have hr' : w.ragContexts.isEmpty = false := by
      simpa using hr
    simp only [hr', Bool.false_eq_true, if_false, h2, List.nil_append]

/-- C2 (amended) — the trace lists exactly the gated-in capabilities whose
attempt succeeded, in the fixed invocation order (plus the retrieval entry);
a failed attempt appends no trace entry: the failure is recorded only as a
marker-prefixed string in the `tool_results` map, which holds one entry per
attempted capability, in order. -/
theorem toolTrace_successes_in_order (rr : RouteRequest) (w : AgentWorld) :
    (gatherTools rr w).1.map (fun tc => tc.tool) = expectedToolNames rr w ∧
    (gatherTools rr w).2 = expectedResults rr w :=
  ⟨gatherTools_trace rr w, gatherTools_results rr w⟩

/-- C2 counterexample: the weather attempt fails and the run succeeds, yet the
returned trace holds no `check_weather_conditions` entry at all — the
attempted invocation has no error-flagged `ToolCall`, only a marker string in
the results map. -/
theorem toolTrace_counterexample :
    Except.map (fun r => r.tool_calls.map (fun tc => tc.tool))
        (runRouteValidationAgent rrC wWeatherFail)
      = .ok ["validate_route_timing", "check_traffic_conditions"] ∧
    (gatherTools rrC wWeatherFail).2.lookup "weather"
      = some (.error "Weather unavailable: boom") :=
  ⟨rfl, rfl⟩

/-- C1 (amended) — an unconfigured provider makes `run_route_validation_agent`
raise `AgentServiceError` before any capability runs, and a failed LLM
invocation makes it raise `AgentServiceError("Agent execution failed: ...")`:
the request is aborted, and no fallback result (`used_llm = false`) exists —
the result schema has no such flag and the persisted record hardcodes
`used_gemini=True`. -/
theorem runAgent_llm_failure_aborts (rr : RouteRequest) (w : AgentWorld) :
    (∀ msg, getLLM w.settings w.geminiImportOk w.openaiImportOk = .error msg →
      runRouteValidationAgent rr w = .error msg) ∧
    (∀ e, getLLM w.settings w.geminiImportOk w.openaiImportOk = .ok () →
      w.llmReply = .error e →
      runRouteValidationAgent rr w = .error ("Agent execution failed: " ++ e)) := by
  constructor
  · intro msg h
    simp [runRouteValidationAgent, h]
  · intro e h1 h2
    simp [runRouteValidationAgent, h1, h2]

/-- C1 witness: concrete aborted runs for the unconfigured-provider case and
the failed-invocation case. -/
theorem runAgent_llm_failure_aborts_witness :
    runRouteValidationAgent rrC wNoLLM
      = .error "No LLM provider configured (need GEMINI_API_KEY or GROQ_API_KEY)" ∧
    runRouteValidationAgent rrC wLLMFail
      = .error ("Agent execution failed: " ++ "timeout") :=
  ⟨(runAgent_llm_failure_aborts rrC wNoLLM).1 _ rfl,
   (runAgent_llm_failure_aborts rrC wLLMFail).2 "timeout" rfl rfl⟩

/-- C1 counterexample: with every tool payload available but no LLM provider
configured, the run does not complete with a fallback result — it aborts with
`AgentServiceError`. -/
theorem runAgent_unconfigured_counterexample :
    runRouteValidationAgent rrC wNoLLM
      = .error "No LLM provider configured (need GEMINI_API_KEY or GROQ_API_KEY)" :=
  rfl

/-- C3 — when the provider is configured and the LLM call succeeds, a single
capability failure never aborts the run: the final response is still produced,
the failure is recorded as a marker-prefixed error entry, every gated-in
capability still has its `tool_results` entry, and every other successful
capability still has its trace entry. -/
theorem capability_failure_isolated (rr : RouteRequest) (w : AgentWorld)
    (c : Cap) (e : String)
    (hconf : getLLM w.settings w.geminiImportOk w.openaiImportOk = .ok ())
    (hllm : w.llmReply.isOk = true)
    (hatt : capGate rr c = true)
    (hfail : capOutcome w c = .error e) :
    (runRouteValidationAgent rr w).isOk = true ∧
    (capKey c, Except.error (capMarker c ++ e)) ∈ (gatherTools rr w).2 ∧
    (∀ c2, capGate rr c2 = true → ∃ o, (capKey c2, o) ∈ (gatherTools rr w).2) ∧
    (∀ c2 j, capGate rr c2 = true → capOutcome w c2 = .ok j →
      capName c2 ∈ (gatherTools rr w).1.map (fun tc => tc.tool)) := by
  have hres := gatherTools_results rr w
  have htr := gatherTools_trace rr w
  refine ⟨?_, ?_, ?_, ?_⟩
  · cases hr : w.llmReply with
    | error e2 =>
      rw [hr] at hllm
      exact Bool.noConfusion hllm
    | ok out =>
      simp only [runRouteValidationAgent, hconf, hr]
      rfl
  · rw [hres]
    unfold expectedResults
    refine List.mem_map.mpr ⟨c, List.mem_filter.mpr ⟨capsOrder_mem c, hatt⟩, ?_⟩
    simp [markedOut, hfail]
  · intro c2 h2
    rw [hres]
    exact ⟨markedOut w c2,
      List.mem_map.mpr ⟨c2, List.mem_filter.mpr ⟨capsOrder_mem c2, h2⟩, rfl⟩⟩
  · intro c2 j h2 hok
    rw [htr]
    unfold expectedToolNames
    apply List.mem_append_left
    refine List.mem_map.mpr ⟨c2, ?_, rfl⟩
    exact List.mem_filter.mpr
      ⟨List.mem_filter.mpr ⟨capsOrder_mem c2, h2⟩, by rw [hok]; rfl⟩

/-- C3 witness: the failure-isolation theorem at a concrete world whose
weather attempt raises while everything else succeeds. -/
theorem capability_failure_isolated_witness :
    (runRouteValidationAgent rrC wWeatherFail).isOk = true ∧
    (capKey .weather, Except.error (capMarker .weather ++ "boom"))
      ∈ (gatherTools rrC wWeatherFail).2 ∧
    (∀ c2, capGate rrC c2 = true →
      ∃ o, (capKey c2, o) ∈ (gatherTools rrC wWeatherFail).2) ∧
    (∀ c2 j, capGate rrC c2 = true → capOutcome wWeatherFail c2 = .ok j →
      capName c2 ∈ (gatherTools rrC wWeatherFail).1.map (fun tc => tc.tool)) :=
  capability_failure_isolated rrC wWeatherFail .weather "boom" rfl rfl rfl rfl

end AgentSpec
